import Mathlib

/-!
Verification development for the tcp-sniffer repository (src/main.c).

The first part embeds the code of src/main.c as it executes on a
little-endian host: the capture buffer, the three header-decoding
functions (the field reads performed by print_ethernet_header,
print_ip_header and print_tcp_packet), and one iteration of the
while-loop in main.

The second part models, from the words of the specification, the
bounds-checked Header Chain Resolver and the capture-source error
protocol that the specification describes and that are absent from
src/main.c (which decodes every header unconditionally).
-/

namespace TcpSniffer

/-- The capture buffer (the 65536-byte scratch buffer allocated by
malloc in main): a byte at every index. -/
abbrev Buffer := Nat → Nat

/-- BUF_SIZE from main.c. -/
def BUF_SIZE : Nat := 65536

/-- Reading one byte of the buffer (values reduced mod 256, as an
unsigned char). -/
def byte (b : Buffer) (i : Nat) : Nat := b i % 256

/-- A 16-bit field as the little-endian host loads it from offset i. -/
def loadLE16 (b : Buffer) (i : Nat) : Nat :=
  byte b i + 256 * byte b (i + 1)

/-- A 32-bit field as the little-endian host loads it from offset i. -/
def loadLE32 (b : Buffer) (i : Nat) : Nat :=
  byte b i + 256 * byte b (i + 1) + 65536 * byte b (i + 2)
    + 16777216 * byte b (i + 3)

/-- ntohs on a little-endian host: swap the two bytes of a 16-bit
value. -/
def ntohs (x : Nat) : Nat := (x % 256) * 256 + (x / 256) % 256

/-- ntohl on a little-endian host: reverse the four bytes of a 32-bit
value. -/
def ntohl (x : Nat) : Nat :=
  (x % 256) * 16777216 + (x / 256 % 256) * 65536
    + (x / 65536 % 256) * 256 + (x / 16777216) % 256

/-- The Ethernet fields read by print_ethernet_header (struct ethhdr at
offset 0): h_dest bytes 0-5, h_source bytes 6-11, h_proto bytes 12-13.
Line 76 prints h_proto with a plain cast, without ntohs, so on the
little-endian host the value is the little-endian load. -/
structure EthFields where
  h_dest : List Nat
  h_source : List Nat
  h_proto : Nat
deriving DecidableEq, Repr

/-- Field reads of print_ethernet_header. -/
def ethFields (b : Buffer) : EthFields :=
  { h_dest := [byte b 0, byte b 1, byte b 2, byte b 3, byte b 4, byte b 5]
  , h_source := [byte b 6, byte b 7, byte b 8, byte b 9, byte b 10, byte b 11]
  , h_proto := loadLE16 b 12 }

/-- The IPv4 fields read by print_ip_header (struct iphdr at offset
sizeof(struct ethhdr) = 14). On a little-endian host the bitfields put
ihl in the low nibble and version in the high nibble of byte 14.
tot_len, id and check go through ntohs; saddr and daddr are used as raw
32-bit values. -/
structure IpFields where
  version : Nat
  ihl : Nat
  tos : Nat
  tot_len : Nat
  id : Nat
  ttl : Nat
  protocol : Nat
  check : Nat
  saddr : Nat
  daddr : Nat
deriving DecidableEq, Repr

/-- Field reads of print_ip_header. -/
def ipFields (b : Buffer) : IpFields :=
  { version := byte b 14 / 16
  , ihl := byte b 14 % 16
  , tos := byte b 15
  , tot_len := ntohs (loadLE16 b 16)
  , id := ntohs (loadLE16 b 18)
  , ttl := byte b 22
  , protocol := byte b 23
  , check := ntohs (loadLE16 b 24)
  , saddr := loadLE32 b 26
  , daddr := loadLE32 b 30 }

/-- The TCP fields read by print_tcp_packet (struct tcphdr at offset
buffer + ip->ihl * 4 + sizeof(struct ethhdr)). On a little-endian host
doff is the high nibble of byte 12 of the header and the flag bits of
byte 13 are fin, syn, rst, psh, ack, urg from bit 0 upward. Line 119
prints urg_ptr without ntohs, so it is the little-endian load. -/
structure TcpFields where
  source : Nat
  dest : Nat
  seq : Nat
  ack_seq : Nat
  doff : Nat
  urg : Nat
  ack : Nat
  psh : Nat
  rst : Nat
  syn : Nat
  fin : Nat
  window : Nat
  check : Nat
  urg_ptr : Nat
deriving DecidableEq, Repr

/-- Field reads of print_tcp_packet from a TCP header at offset t. -/
def tcpFieldsAt (b : Buffer) (t : Nat) : TcpFields :=
  { source := ntohs (loadLE16 b t)
  , dest := ntohs (loadLE16 b (t + 2))
  , seq := ntohl (loadLE32 b (t + 4))
  , ack_seq := ntohl (loadLE32 b (t + 8))
  , doff := byte b (t + 12) / 16
  , urg := byte b (t + 13) / 32 % 2
  , ack := byte b (t + 13) / 16 % 2
  , psh := byte b (t + 13) / 8 % 2
  , rst := byte b (t + 13) / 4 % 2
  , syn := byte b (t + 13) / 2 % 2
  , fin := byte b (t + 13) % 2
  , window := ntohs (loadLE16 b (t + 14))
  , check := ntohs (loadLE16 b (t + 16))
  , urg_ptr := loadLE16 b (t + 18) }

/-- The TCP header offset computed at line 103 of main.c:
buffer + ip->ihl * 4 + sizeof(struct ethhdr). -/
def tcpStart (b : Buffer) : Nat := 14 + byte b 14 % 16 * 4

/-- print_tcp_packet: decode the TCP header at the offset derived from
the IHL nibble. -/
def tcpFields (b : Buffer) : TcpFields := tcpFieldsAt b (tcpStart b)

/-- What one loop iteration of main emits: the three header reports,
produced by the three unconditional calls at lines 61-63. -/
structure FrameReport where
  eth : EthFields
  ip : IpFields
  tcp : TcpFields

/-- Lines 61-63 of main.c: decode all three headers from the buffer,
with no condition on any field value. -/
def processBuffer (b : Buffer) : FrameReport :=
  { eth := ethFields b, ip := ipFields b, tcp := tcpFields b }

/-- Overwrite the first len bytes of the buffer with freshly received
data, as recvfrom does; the rest of the buffer keeps its old bytes. -/
def recvWrite (b : Buffer) (len : Nat) (data : Buffer) : Buffer :=
  fun i => if i < len then data i else b i

/-- Outcome of one pass of the while-loop in main: either the loop
terminates (return -1) or it reports the decoded headers and continues
with the updated buffer. -/
inductive LoopOutcome where
  | exit : LoopOutcome
  | report : Buffer → FrameReport → LoopOutcome

/-- One iteration of the while-loop in main.c (lines 36-64): recvfrom
yields msg_len and, when msg_len is nonnegative, writes msg_len bytes
into the front of the buffer; a negative msg_len makes main return -1,
any other value falls through to the three decoding calls. -/
def loopIter (b : Buffer) (msg_len : Int) (data : Buffer) : LoopOutcome :=
  if msg_len < 0 then .exit
  else
    .report (recvWrite b msg_len.toNat data)
      (processBuffer (recvWrite b msg_len.toNat data))

/-- Overwrite a single byte of the buffer (used to state that a decoder
does not depend on that byte). -/
def writeByte (b : Buffer) (j v : Nat) : Buffer :=
  fun i => if i = j then v else b i

/-- A captured frame: an immutable byte sequence of length L. -/
abbrev Frame := List Nat

/-- View a frame as a buffer, as main.c lays the received bytes at the
front of its scratch buffer (indices past the frame read 0). -/
def bufOf (f : Frame) : Buffer := fun i => f.getD i 0

/-- The header stage at which resolution failed. -/
inductive Stage where
  | Ethernet : Stage
  | IPv4 : Stage
  | TCP : Stage
deriving DecidableEq, Repr

/-- Modelled from the spec: the error taxonomy of section 7, used by the
Header Chain Resolver that src/main.c does not implement.
TruncatedHeader carries the stage and the expected and actual byte
counts; InvalidHeaderLength carries the stage and the declared word
count. -/
inductive ResolveError where
  | TruncatedHeader : Stage → Nat → Nat → ResolveError
  | InvalidHeaderLength : Stage → Nat → ResolveError
deriving DecidableEq, Repr

/-- A header view: a read-only projection over the byte range
[start, start + len) of the frame. -/
structure View where
  start : Nat
  len : Nat
deriving DecidableEq, Repr

/-- Result of one resolver step: a view or a resolution error. -/
inductive StepResult where
  | ok : View → StepResult
  | fail : ResolveError → StepResult
deriving DecidableEq, Repr

/-- Modelled from the spec: Step 1 (Ethernet) of the Header Chain
Resolver, absent from src/main.c. Fails with TruncatedHeader
(expected 14, actual L) when L < 14, otherwise yields the view over
bytes [0, 14). -/
def resolveEthernet (f : Frame) : StepResult :=
  if f.length < 14 then .fail (.TruncatedHeader .Ethernet 14 f.length)
  else .ok ⟨0, 14⟩

/-- Modelled from the spec: Step 2 (IPv4) of the Header Chain Resolver,
absent from src/main.c. Reads IHL as the header-length nibble of byte 14
(the low nibble, as struct iphdr reads it on a little-endian host),
fails with InvalidHeaderLength when IHL < 5, fails with TruncatedHeader
when L < 14 + IHL * 4, otherwise yields the view over
[14, 14 + IHL * 4). -/
def resolveIp (f : Frame) : StepResult :=
  if f.getD 14 0 % 16 < 5 then
    .fail (.InvalidHeaderLength .IPv4 (f.getD 14 0 % 16))
  else if f.length < 14 + f.getD 14 0 % 16 * 4 then
    .fail (.TruncatedHeader .IPv4 (14 + f.getD 14 0 % 16 * 4) f.length)
  else .ok ⟨14, f.getD 14 0 % 16 * 4⟩

/-- Modelled from the spec: Step 3 (TCP) of the Header Chain Resolver,
absent from src/main.c. Reads DOFF as the data-offset nibble of the
first TCP byte (the high nibble, as struct tcphdr reads it), fails with
InvalidHeaderLength when DOFF < 5, fails with TruncatedHeader when
L < 14 + ip_len + DOFF * 4, otherwise yields the view over
[14 + ip_len, 14 + ip_len + DOFF * 4). -/
def resolveTcp (f : Frame) (ip_len : Nat) : StepResult :=
  if f.getD (14 + ip_len) 0 / 16 < 5 then
    .fail (.InvalidHeaderLength .TCP (f.getD (14 + ip_len) 0 / 16))
  else if f.length < 14 + ip_len + f.getD (14 + ip_len) 0 / 16 * 4 then
    .fail (.TruncatedHeader .TCP (14 + ip_len + f.getD (14 + ip_len) 0 / 16 * 4)
      f.length)
  else .ok ⟨14 + ip_len, f.getD (14 + ip_len) 0 / 16 * 4⟩

/-- Outcome of resolving one frame: the views that succeeded, in order,
and the error of the first failing stage, if any. -/
structure ChainResult where
  eth : Option View
  ip : Option View
  tcp : Option View
  err : Option ResolveError
deriving DecidableEq, Repr

/-- Modelled from the spec: the full Header Chain Resolver of section
4.1, absent from src/main.c. Resolves Ethernet, then IPv4, then -
only when the protocol field of the IPv4 view (the byte at offset 9
inside the view) equals 6 - TCP; a failing stage stops the chain and
later headers are omitted. -/
def resolveChain (f : Frame) : ChainResult :=
  match resolveEthernet f with
  | .fail e => ⟨none, none, none, some e⟩
  | .ok ev =>
    match resolveIp f with
    | .fail e => ⟨some ev, none, none, some e⟩
    | .ok iv =>
      if f.getD (iv.start + 9) 0 = 6 then
        match resolveTcp f iv.len with
        | .fail e => ⟨some ev, some iv, none, some e⟩
        | .ok tv => ⟨some ev, some iv, some tv, none⟩
      else ⟨some ev, some iv, none, none⟩

/-- Modelled from the spec: one result of the capture-source interface
of section 6, next_frame() -> Frame or Error{Fatal, Empty}; absent from
src/main.c, where recvfrom only distinguishes negative from nonnegative
return values. -/
inductive CaptureResult where
  | frame : Frame → CaptureResult
  | emptyRead : CaptureResult
  | fatal : CaptureResult
deriving DecidableEq, Repr

/-- Modelled from the spec: the capture loop of sections 4.3 and 7 over
a sequence of capture-source results. Fatal ends the loop; Empty skips
the iteration and continues; a frame is resolved and its result -
including any per-frame resolution error - is emitted, after which the
loop continues with the next result. -/
def runLoop : List CaptureResult → List ChainResult
  | [] => []
  | .fatal :: _ => []
  | .emptyRead :: rs => runLoop rs
  | .frame f :: rs => resolveChain f :: runLoop rs

/-- A concrete 54-byte frame: 14-byte Ethernet header with ether-type
0x0800, 20-byte IPv4 header with version 4, IHL 5, protocol 6, and a
20-byte TCP header with DOFF 5, SYN set, ACK clear, urgent pointer
0x1234. The source port is 0x5014, so the data-offset nibble that the
spec places in the first TCP byte also reads 5 there. -/
def frame54 : Frame :=
  [0xaa, 0xbb, 0xcc, 0xdd, 0xee, 0xff,
   0x11, 0x22, 0x33, 0x44, 0x55, 0x66,
   0x08, 0x00,
   0x45, 0x00, 0x00, 0x28,
   0x1a, 0x2b,
   0x40, 0x00,
   0x40, 0x06,
   0xab, 0xcd,
   0xc0, 0xa8, 0x00, 0x01,
   0xc0, 0xa8, 0x00, 0x02,
   0x50, 0x14, 0x00, 0x50,
   0x00, 0x00, 0x00, 0x64,
   0x00, 0x00, 0x00, 0x00,
   0x50,
   0x02,
   0x20, 0x00,
   0xbe, 0xef,
   0x12, 0x34]

/-- A concrete 34-byte frame: Ethernet plus a 20-byte IPv4 header with
IHL 5 and protocol 17 (UDP), so the TCP stage must not be attempted. -/
def frame34 : Frame :=
  [0xaa, 0xbb, 0xcc, 0xdd, 0xee, 0xff,
   0x11, 0x22, 0x33, 0x44, 0x55, 0x66,
   0x08, 0x00,
   0x45, 0x00, 0x00, 0x14,
   0x1a, 0x2b,
   0x40, 0x00,
   0x40, 0x11,
   0xab, 0xcd,
   0xc0, 0xa8, 0x00, 0x01,
   0xc0, 0xa8, 0x00, 0x02]

/-- A concrete 15-byte frame whose IHL nibble at byte 14 is 0. -/
def frame15 : Frame :=
  [0, 0, 0, 0, 0, 0, 0, 0, 0, 0, 0, 0, 0, 0, 0x40]

/-- The all-zero buffer, a concrete initial buffer state. -/
def zeroBuf : Buffer := fun _ => 0

/-- Claim C1: for every frame of length L < 14, Ethernet resolution
fails with TruncatedHeader at stage Ethernet carrying expected 14 and
actual L, and the chain result holds neither an IPv4 nor a TCP view. -/
theorem c1_short_frame_truncated_ethernet (f : Frame) (h : f.length < 14) :
    resolveEthernet f = .fail (.TruncatedHeader .Ethernet 14 f.length) ∧
    (resolveChain f).ip = none ∧ (resolveChain f).tcp = none := by
  have he : resolveEthernet f = .fail (.TruncatedHeader .Ethernet 14 f.length) := by
    simp [resolveEthernet, h]
  refine ⟨he, ?_, ?_⟩ <;> simp [resolveChain, he]

/-- Witness for C1 at the concrete 3-byte frame. -/
theorem c1_short_frame_truncated_ethernet_witness :
    resolveEthernet [1, 2, 3] = .fail (.TruncatedHeader .Ethernet 14 3) ∧
    (resolveChain [1, 2, 3]).ip = none ∧ (resolveChain [1, 2, 3]).tcp = none :=
  c1_short_frame_truncated_ethernet [1, 2, 3] (by decide)

/-- Claim C4: for every frame whose IHL nibble at byte 14 is below 5,
IPv4 resolution fails with InvalidHeaderLength, and the resolver chain
never produces a TCP view for that frame, whatever its length. -/
theorem c4_small_ihl_invalid (f : Frame) (h : f.getD 14 0 % 16 < 5) :
    resolveIp f = .fail (.InvalidHeaderLength .IPv4 (f.getD 14 0 % 16)) ∧
    (resolveChain f).tcp = none := by
  have hi : resolveIp f = .fail (.InvalidHeaderLength .IPv4 (f.getD 14 0 % 16)) := by
    unfold resolveIp
    rw [if_pos h]
  refine ⟨hi, ?_⟩
  cases he : resolveEthernet f with
  | ok ev => simp [resolveChain, he, hi]
  | fail e => simp [resolveChain, he]

/-- Witness for C4 at the concrete 15-byte frame with IHL nibble 0. -/
theorem c4_small_ihl_invalid_witness :
    resolveIp frame15 = .fail (.InvalidHeaderLength .IPv4 (frame15.getD 14 0 % 16)) ∧
    (resolveChain frame15).tcp = none :=
  c4_small_ihl_invalid frame15 (by decide)

/-- Claim C5: on the concrete 54-byte frame (Ethernet with ether-type
0x0800, IPv4 with version 4, IHL 5, protocol 6, TCP with DOFF 5, SYN
set, ACK clear) the resolver returns all three views, and the TCP
accessors of the code report SYN 1, ACK 0 and a header length of
20 bytes. -/
theorem c5_syn_frame_end_to_end :
    resolveChain frame54 =
      ⟨some ⟨0, 14⟩, some ⟨14, 20⟩, some ⟨34, 20⟩, none⟩ ∧
    (tcpFields (bufOf frame54)).syn = 1 ∧
    (tcpFields (bufOf frame54)).ack = 0 ∧
    (tcpFields (bufOf frame54)).doff * 4 = 20 := by
  refine ⟨by decide, by decide, by decide, by decide⟩

/-- Claim C9: the code decodes all three headers unconditionally; the
IPv4 fields are read from offset 14 whatever the ether-type bytes 12
and 13 hold, and the TCP header offset 14 + IHL * 4 is unchanged by any
value of the protocol byte 23. -/
theorem c9_unconditional_decoding (b : Buffer) (v : Nat) :
    processBuffer b =
      ⟨ethFields b, ipFields b, tcpFieldsAt b (14 + byte b 14 % 16 * 4)⟩ ∧
    ipFields (writeByte b 12 v) = ipFields b ∧
    ipFields (writeByte b 13 v) = ipFields b ∧
    tcpStart (writeByte b 23 v) = tcpStart b := by
  exact ⟨rfl, rfl, rfl, rfl⟩

/-- Claim C10: a zero-length read leaves the buffer unchanged and the
iteration still decodes all three headers from it; a strictly negative
read result terminates the loop. -/
theorem c10_zero_read_still_decodes (b data : Buffer) :
    loopIter b 0 data = .report b (processBuffer b) ∧
    ∀ n : Int, n < 0 → loopIter b n data = .exit := by
  have hw : recvWrite b (Int.toNat 0) data = b := by
    funext i
    simp [recvWrite]
  constructor
  · rw [loopIter, if_neg (by decide), hw]
  · intro n hn
    rw [loopIter, if_pos hn]

/-- Witness for C10 at the all-zero buffer and read result -1. -/
theorem c10_zero_read_still_decodes_witness :
    loopIter zeroBuf 0 zeroBuf = .report zeroBuf (processBuffer zeroBuf) ∧
    loopIter zeroBuf (-1) zeroBuf = .exit :=
  ⟨(c10_zero_read_still_decodes zeroBuf zeroBuf).1,
   (c10_zero_read_still_decodes zeroBuf zeroBuf).2 (-1) (by decide)⟩

/-- Helper: a successful IPv4 step always yields the view starting at 14
whose length is the IHL nibble times 4. -/
theorem resolveIp_ok_shape (f : Frame) (iv : View) (h : resolveIp f = .ok iv) :
    iv = ⟨14, f.getD 14 0 % 16 * 4⟩ := by
  unfold resolveIp at h
  split at h
  · exact absurd h (by simp)
  · split at h
    · exact absurd h (by simp)
    · injection h with h2
      exact h2.symm

/-- Helper: a successful TCP step always yields the view starting at
14 + ip_len whose length is the DOFF nibble times 4. -/
theorem resolveTcp_ok_shape (f : Frame) (ip_len : Nat) (tv : View)
    (h : resolveTcp f ip_len = .ok tv) :
    tv = ⟨14 + ip_len, f.getD (14 + ip_len) 0 / 16 * 4⟩ := by
  unfold resolveTcp at h
  split at h
  · exact absurd h (by simp)
  · split at h
    · exact absurd h (by simp)
    · injection h with h2
      exact h2.symm

/-- Helper: when the chain produces all three views, the IPv4 and TCP
steps succeeded with exactly those views. -/
theorem resolveChain_tcp_some (f : Frame) (ev iv tv : View)
    (h : resolveChain f = ⟨some ev, some iv, some tv, none⟩) :
    resolveIp f = .ok iv ∧ resolveTcp f iv.len = .ok tv := by
  cases hE : resolveEthernet f with
  | fail e => simp [resolveChain, hE] at h
  | ok ev0 =>
    cases hI : resolveIp f with
    | fail e => simp [resolveChain, hE, hI] at h
    | ok iv0 =>
      by_cases hP : f.getD (iv0.start + 9) 0 = 6
      · cases hT : resolveTcp f iv0.len with
        | fail e =>
          simp only [resolveChain, hE, hI, hT] at h
          rw [if_pos hP] at h
          simp at h
        | ok tv0 =>
          simp only [resolveChain, hE, hI, hT] at h
          rw [if_pos hP] at h
          have hh : ev0 = ev ∧ iv0 = iv ∧ tv0 = tv := by simpa using h
          obtain ⟨h1, h2, h3⟩ := hh
          subst h2
          subst h3
          exact ⟨rfl, hT⟩
      · simp only [resolveChain, hE, hI] at h
        rw [if_neg hP] at h
        simp at h

/-- Claim C2: once Ethernet and IPv4 resolve, the chain attempts the TCP
step exactly when the protocol field of the IPv4 view equals 6; when it
differs from 6 the chain reports neither a TCP view nor any error. -/
theorem c2_tcp_gated_on_protocol (f : Frame) (ev iv : View)
    (hE : resolveEthernet f = .ok ev) (hI : resolveIp f = .ok iv) :
    ((resolveChain f).tcp, (resolveChain f).err) =
      (if f.getD (iv.start + 9) 0 = 6 then
        match resolveTcp f iv.len with
        | .ok tv => (some tv, none)
        | .fail e => (none, some e)
      else (none, none)) := by
  by_cases hP : f.getD (iv.start + 9) 0 = 6
  · cases hT : resolveTcp f iv.len with
    | ok tv =>
      simp only [resolveChain, hE, hI, hT]
      rw [if_pos hP, if_pos hP]
    | fail e =>
      simp only [resolveChain, hE, hI, hT]
      rw [if_pos hP, if_pos hP]
  · simp only [resolveChain, hE, hI]
    rw [if_neg hP, if_neg hP]

/-- Witness for C2 at the concrete 34-byte frame with protocol 17: the
chain produces no TCP view and reports no error. -/
theorem c2_tcp_gated_on_protocol_witness :
    ((resolveChain frame34).tcp, (resolveChain frame34).err) = (none, none) := by
  have h := c2_tcp_gated_on_protocol frame34 ⟨0, 14⟩ ⟨14, 20⟩ (by decide) (by decide)
  rw [h]
  decide

/-- Claim C6: when all three headers resolve, the IPv4 view covers
exactly [14, 14 + IHL * 4) and the TCP view covers exactly
[14 + IHL * 4, 14 + IHL * 4 + DOFF * 4), the start of each view being
the end of the preceding one. -/
theorem c6_views_cover_declared_ranges (f : Frame) (ev iv tv : View)
    (h : resolveChain f = ⟨some ev, some iv, some tv, none⟩) :
    iv = ⟨14, f.getD 14 0 % 16 * 4⟩ ∧
    tv = ⟨14 + f.getD 14 0 % 16 * 4,
          f.getD (14 + f.getD 14 0 % 16 * 4) 0 / 16 * 4⟩ ∧
    tv.start = iv.start + iv.len := by
  obtain ⟨hI, hT⟩ := resolveChain_tcp_some f ev iv tv h
  have hiv := resolveIp_ok_shape f iv hI
  subst hiv
  have htv := resolveTcp_ok_shape f (View.mk 14 (f.getD 14 0 % 16 * 4)).len tv hT
  subst htv
  exact ⟨rfl, rfl, rfl⟩

/-- Witness for C6 at the concrete 54-byte SYN frame. -/
theorem c6_views_cover_declared_ranges_witness :
    View.mk 14 20 = ⟨14, frame54.getD 14 0 % 16 * 4⟩ ∧
    View.mk 34 20 = ⟨14 + frame54.getD 14 0 % 16 * 4,
      frame54.getD (14 + frame54.getD 14 0 % 16 * 4) 0 / 16 * 4⟩ ∧
    (View.mk 34 20).start = (View.mk 14 20).start + (View.mk 14 20).len :=
  c6_views_cover_declared_ranges frame54 ⟨0, 14⟩ ⟨14, 20⟩ ⟨34, 20⟩ (by decide)

/-- Helper: the loop output of everything before a first fatal result is
unaffected by the fatal result and whatever follows it. -/
theorem runLoop_stops_at_fatal (rest : List CaptureResult) :
    ∀ pre : List CaptureResult, CaptureResult.fatal ∉ pre →
      runLoop (pre ++ .fatal :: rest) = runLoop pre := by
  intro pre
  induction pre with
  | nil => intro _; simp [runLoop]
  | cons r rs ih =>
    intro hpre
    have hrs := ih (fun hm => hpre (List.mem_cons_of_mem r hm))
    cases r with
    | fatal => exact absurd (List.mem_cons_self _ _) hpre
    | emptyRead => simpa [runLoop] using hrs
    | frame f => simp [runLoop, hrs]

/-- Claim C7: a Fatal capture result terminates the loop (nothing after
it is processed), an Empty result skips its iteration and the loop
continues, and every frame - including one whose resolution fails - is
handled within its own iteration, leaving the processing of all later
results unchanged. -/
theorem c7_capture_error_policy (pre rest : List CaptureResult)
    (hpre : CaptureResult.fatal ∉ pre) :
    runLoop (pre ++ .fatal :: rest) = runLoop pre ∧
    (∀ rs, runLoop (.emptyRead :: rs) = runLoop rs) ∧
    (∀ f rs, runLoop (.frame f :: rs) = resolveChain f :: runLoop rs) :=
  ⟨runLoop_stops_at_fatal rest pre hpre,
   fun rs => by simp [runLoop],
   fun f rs => by simp [runLoop]⟩

/-- Witness for C7 on a concrete capture sequence: a short frame, an
empty read, then a fatal result followed by one more frame. -/
theorem c7_capture_error_policy_witness :
    CaptureResult.fatal ∉ [CaptureResult.frame frame15, CaptureResult.emptyRead] ∧
    runLoop ([CaptureResult.frame frame15, CaptureResult.emptyRead]
        ++ .fatal :: [CaptureResult.frame frame34]) =
      runLoop [CaptureResult.frame frame15, CaptureResult.emptyRead] :=
  ⟨by decide,
   (c7_capture_error_policy [CaptureResult.frame frame15, CaptureResult.emptyRead]
     [CaptureResult.frame frame34] (by decide)).1⟩

/-- Helper: two frames of equal length whose byte reads agree everywhere
are the same list. -/
theorem frame_eq_of_getD (as : List Nat) :
    ∀ bs : List Nat, as.length = bs.length →
      (∀ i, as.getD i 0 = bs.getD i 0) → as = bs := by
  induction as with
  | nil =>
    intro bs hlen _
    cases bs with
    | nil => rfl
    | cons b bs => simp at hlen
  | cons a as ih =>
    intro bs hlen h
    cases bs with
    | nil => simp at hlen
    | cons b bs =>
      have h0 : a = b := by simpa using h 0
      have ht : as = bs := ih bs (by simpa using hlen) (fun i => by simpa using h (i + 1))
      rw [h0, ht]

/-- Claim C8: resolution is a pure function of the frame bytes, so
resolving the same immutable byte sequence a second time - here stated
as resolving any frame presenting the same length and the same byte at
every index - yields the same views and the same decoded field
contents. -/
theorem c8_resolution_repeatable (f g : Frame) (hlen : f.length = g.length)
    (hbytes : ∀ i, f.getD i 0 = g.getD i 0) :
    resolveChain f = resolveChain g ∧
    processBuffer (bufOf f) = processBuffer (bufOf g) := by
  have hfg : f = g := frame_eq_of_getD f g hlen hbytes
  rw [hfg]
  exact ⟨rfl, rfl⟩

/-- Witness for C8: a second resolution of the concrete 34-byte frame
agrees with the first. -/
theorem c8_resolution_repeatable_witness :
    resolveChain frame34 = resolveChain frame34 ∧
    processBuffer (bufOf frame34) = processBuffer (bufOf frame34) :=
  c8_resolution_repeatable frame34 frame34 rfl (fun _ => rfl)

/-- Claim C3 (refuted on the code): the Ethernet ether-type (line 76)
and the TCP urgent pointer (line 119) are printed without ntohs, so on
the little-endian host they differ from the network-byte-order
conversion the claim requires; the IPv4 total length, by contrast, is
converted as claimed. On frame54 the ether-type bytes are 0x08 0x00 and
the urgent-pointer bytes are 0x12 0x34. -/
theorem c3_ether_type_and_urg_ptr_not_converted :
    (ethFields (bufOf frame54)).h_proto = 8 ∧
    ntohs (loadLE16 (bufOf frame54) 12) = 2048 ∧
    (ethFields (bufOf frame54)).h_proto ≠ ntohs (loadLE16 (bufOf frame54) 12) ∧
    (tcpFields (bufOf frame54)).urg_ptr = 13330 ∧
    ntohs (loadLE16 (bufOf frame54) 52) = 4660 ∧
    (tcpFields (bufOf frame54)).urg_ptr ≠ ntohs (loadLE16 (bufOf frame54) 52) ∧
    (ipFields (bufOf frame54)).tot_len = ntohs (loadLE16 (bufOf frame54) 16) := by
  refine ⟨by decide, by decide, by decide, by decide, by decide, by decide, by decide⟩

end TcpSniffer
